import Mathlib

/-!
Verification of the IMAP session/protocol-adaptation engine of
mcp-email-server (`mcp_email_server/emails/classic.py`).

The Python code is shallowly embedded: each network command's outcome is
supplied by an explicit oracle (a function argument), since the real outcome
depends on the remote server.  Per-iteration outcomes are indexed by the
iteration counter.  All definitions follow the source control flow; line
numbers in doc comments refer to `classic.py`.
-/

namespace McpEmail

/-! ## Python list slicing

`pySlice l a b` models the Python expression `l[a:b]` for arbitrary integer
bounds: a negative index is first shifted by `len(l)`, then both indices are
clamped into `[0, len(l)]`, and the result is the elements with (clamped)
indices `a' <= i < b'`.  Used by `get_emails_metadata_stream` at
`sorted_uids[start:end]`, `date_tuples[start:end]` and
`all_metadata[start:end]` (classic.py lines 467, 513, 521). -/

def pySlice {α : Type} (l : List α) (a b : Int) : List α :=
  let n : Int := l.length
  let a' : Int := if a < 0 then max (n + a) 0 else min a n
  let b' : Int := if b < 0 then max (n + b) 0 else min b n
  (l.take b'.toNat).drop a'.toNat

/-- Stable insertion into a sorted list: `x` is placed before the first
element it compares less-or-equal to, so an element inserted from earlier in
the original list stays before equal elements. -/
def pyInsert {α : Type} (le : α → α → Bool) (x : α) : List α → List α
  | [] => [x]
  | y :: ys => if le x y then x :: y :: ys else y :: pyInsert le x ys

/-- Stable sort (insertion sort), modelling the stability guarantee of
CPython's `list.sort`. -/
def pyStableSort {α : Type} (le : α → α → Bool) : List α → List α
  | [] => []
  | x :: xs => pyInsert le x (pyStableSort le xs)

/-- Python `list.sort(key=key, reverse=desc)`: a stable sort comparing keys,
with the comparison reversed when `desc` is true (equal keys keep list order
either way, as in CPython). -/
def pySortByKey {α κ : Type} [LinearOrder κ] (desc : Bool) (key : α → κ)
    (l : List α) : List α :=
  pyStableSort (fun x y => if desc then decide (key y ≤ key x) else decide (key x ≤ key y)) l

/-! ## Bulk operations (classic.py `delete_emails`, `copy_emails`, `move_emails`)

Each per-item body is a `try`/`except` around one or more IMAP commands; the
oracle argument gives, for iteration `i`, the combined outcome of those
commands. -/

/-- Outcome of the per-item `UID COPY` in `copy_emails` (lines 1057-1069):
the command returns an `OK` status, returns a non-`OK` status, or raises. -/
inductive CopyOutcome where
  | okStatus
  | badStatus
  | exn
deriving DecidableEq

/-- Outcome of one iteration of the `move_emails` loop (lines 1100-1125):
native `UID MOVE` returns `OK`; or the move raised / returned non-`OK` and the
`UID COPY` + `UID STORE +FLAGS (\Deleted)` fallback succeeded; or the fallback
`UID COPY` returned a non-`OK` status; or an exception escaped the fallback and
was caught by the outer `except`. -/
inductive MoveOutcome where
  | moveOk
  | fallbackCopyOk
  | fallbackCopyBad
  | exn
deriving DecidableEq

/-- Generic shape shared by the three bulk loops: item `i` goes to the first
list when `p i` holds and to the second otherwise, preserving input order. -/
def bulkSplit (p : Nat → Bool) : Nat → List String → List String × List String
  | _, [] => ([], [])
  | i, x :: rest =>
    let r := bulkSplit p (i + 1) rest
    if p i then (x :: r.1, r.2) else (r.1, x :: r.2)

/-- Loop body of `delete_emails` (lines 957-963): `UID STORE +FLAGS (\Deleted)`
per id; on success append to `deleted_ids`, on exception append to
`failed_ids`.  `store i = true` means the command at iteration `i` did not
raise. -/
def delete_emails_loop (store : Nat → Bool) :
    Nat → List String → List String × List String
  | _, [] => ([], [])
  | i, email_id :: rest =>
    let r := delete_emails_loop store (i + 1) rest
    if store i then (email_id :: r.1, r.2) else (r.1, email_id :: r.2)

/-- Result of `delete_emails` together with the number of `EXPUNGE` commands
issued for the batch. -/
structure DeleteRun where
  deleted_ids : List String
  failed_ids : List String
  expunge_calls : Nat
deriving DecidableEq

/-- `delete_emails` (lines 944-972) after a successful connect/login/select:
run the per-item loop, then issue `await imap.expunge()` once, unconditionally
(line 965 has no guard, unlike `move_emails` line 1128). -/
def delete_emails (store : Nat → Bool) (email_ids : List String) : DeleteRun :=
  let r := delete_emails_loop store 0 email_ids
  { deleted_ids := r.1, failed_ids := r.2, expunge_calls := 1 }

/-- Loop of `copy_emails` (lines 1057-1069): `UID COPY` per id; `OK` status
appends to `copied_ids`, a non-`OK` status or an exception appends to
`failed_ids`. -/
def copy_emails_loop (copy : Nat → CopyOutcome) :
    Nat → List String → List String × List String
  | _, [] => ([], [])
  | i, email_id :: rest =>
    let r := copy_emails_loop copy (i + 1) rest
    match copy i with
    | .okStatus => (email_id :: r.1, r.2)
    | .badStatus => (r.1, email_id :: r.2)
    | .exn => (r.1, email_id :: r.2)

/-- `copy_emails` (lines 1039-1077): returns `(copied_ids, failed_ids)`. -/
def copy_emails (copy : Nat → CopyOutcome) (email_ids : List String) :
    List String × List String :=
  copy_emails_loop copy 0 email_ids

/-- Loop of `move_emails` (lines 1100-1125): native move, else copy+delete
fallback; either success appends to `moved_ids`, a failed fallback copy or an
escaped exception appends to `failed_ids`. -/
def move_emails_loop (move : Nat → MoveOutcome) :
    Nat → List String → List String × List String
  | _, [] => ([], [])
  | i, email_id :: rest =>
    let r := move_emails_loop move (i + 1) rest
    match move i with
    | .moveOk => (email_id :: r.1, r.2)
    | .fallbackCopyOk => (email_id :: r.1, r.2)
    | .fallbackCopyBad => (r.1, email_id :: r.2)
    | .exn => (r.1, email_id :: r.2)

/-- Result of `move_emails` with the number of `EXPUNGE` commands issued. -/
structure MoveRun where
  moved_ids : List String
  failed_ids : List String
  expunge_calls : Nat
deriving DecidableEq

/-- `move_emails` (lines 1079-1137): per-item loop, then
`if moved_ids: await imap.expunge()` (line 1128). -/
def move_emails (move : Nat → MoveOutcome) (email_ids : List String) : MoveRun :=
  let r := move_emails_loop move 0 email_ids
  { moved_ids := r.1, failed_ids := r.2,
    expunge_calls := if r.1.isEmpty then 0 else 1 }

/-- Success of iteration `i` of the copy loop. -/
def copySucc (copy : Nat → CopyOutcome) (i : Nat) : Bool :=
  match copy i with
  | .okStatus => true
  | .badStatus => false
  | .exn => false

/-- Success of iteration `i` of the move loop. -/
def moveSucc (move : Nat → MoveOutcome) (i : Nat) : Bool :=
  match move i with
  | .moveOk => true
  | .fallbackCopyOk => true
  | .fallbackCopyBad => false
  | .exn => false

lemma delete_emails_loop_eq_bulkSplit (store : Nat → Bool) :
    ∀ (i : Nat) (ids : List String),
      delete_emails_loop store i ids = bulkSplit store i ids := by
  intro i ids
  induction ids generalizing i with
  | nil => rfl
  | cons x rest ih => simp [delete_emails_loop, bulkSplit, ih]

lemma copy_emails_loop_eq_bulkSplit (copy : Nat → CopyOutcome) :
    ∀ (i : Nat) (ids : List String),
      copy_emails_loop copy i ids = bulkSplit (copySucc copy) i ids := by
  intro i ids
  induction ids generalizing i with
  | nil => rfl
  | cons x rest ih =>
    cases hc : copy i <;>
      simp [copy_emails_loop, bulkSplit, copySucc, hc, ih]

lemma move_emails_loop_eq_bulkSplit (move : Nat → MoveOutcome) :
    ∀ (i : Nat) (ids : List String),
      move_emails_loop move i ids = bulkSplit (moveSucc move) i ids := by
  intro i ids
  induction ids generalizing i with
  | nil => rfl
  | cons x rest ih =>
    cases hm : move i <;>
      simp [move_emails_loop, bulkSplit, moveSucc, hm, ih]

/-- The success/failure lists partition the input batch: occurrence counts add
up, each output list is an order-preserving sublist of the input, and (for the
claim's duplicate-free batches) no identifier lands in both lists. -/
def partitionSpec (input s f : List String) : Prop :=
  (∀ x, s.count x + f.count x = input.count x)
    ∧ s.Sublist input ∧ f.Sublist input ∧ ∀ x, x ∈ s → x ∉ f

lemma bulkSplit_count (p : Nat → Bool) (i : Nat) (ids : List String) (x : String) :
    (bulkSplit p i ids).1.count x + (bulkSplit p i ids).2.count x = ids.count x := by
  induction ids generalizing i with
  | nil => simp [bulkSplit]
  | cons y rest ih =>
    have hr := ih (i + 1)
    by_cases h : p i <;>
      simp [bulkSplit, h, List.count_cons] <;>
      split <;> omega

lemma bulkSplit_sublist (p : Nat → Bool) (i : Nat) (ids : List String) :
    (bulkSplit p i ids).1.Sublist ids ∧ (bulkSplit p i ids).2.Sublist ids := by
  induction ids generalizing i with
  | nil => simp [bulkSplit]
  | cons y rest ih =>
    simp only [bulkSplit]
    by_cases h : p i <;> simp only [h, if_true, if_false]
    · exact ⟨List.Sublist.cons₂ y (ih (i + 1)).1, List.Sublist.cons y (ih (i + 1)).2⟩
    · exact ⟨List.Sublist.cons y (ih (i + 1)).1, List.Sublist.cons₂ y (ih (i + 1)).2⟩

lemma bulkSplit_partitionSpec (p : Nat → Bool) (i : Nat) (ids : List String)
    (hnd : ids.Nodup) :
    partitionSpec ids (bulkSplit p i ids).1 (bulkSplit p i ids).2 := by
  refine ⟨fun x => bulkSplit_count p i ids x, (bulkSplit_sublist p i ids).1,
    (bulkSplit_sublist p i ids).2, fun x hs hf => ?_⟩
  have h1 : 0 < (bulkSplit p i ids).1.count x := List.count_pos_iff.2 hs
  have h2 : 0 < (bulkSplit p i ids).2.count x := List.count_pos_iff.2 hf
  have hc := bulkSplit_count p i ids x
  have hle : ids.count x ≤ 1 := List.nodup_iff_count_le_one.1 hnd x
  omega

/-- C1: for every identifier batch submitted to `delete_emails`, `copy_emails`
or `move_emails` (with per-iteration command outcomes given by the oracles),
every identifier of the input appears in exactly one of the two returned lists
— counts add up exactly, each returned list preserves the input's relative
order (is a sublist of the input), and no identifier appears in both. -/
theorem C1_bulk_partition (store : Nat → Bool) (copy : Nat → CopyOutcome)
    (move : Nat → MoveOutcome) (ids : List String) (hnd : ids.Nodup) :
    partitionSpec ids (delete_emails store ids).deleted_ids
        (delete_emails store ids).failed_ids
      ∧ partitionSpec ids (copy_emails copy ids).1 (copy_emails copy ids).2
      ∧ partitionSpec ids (move_emails move ids).moved_ids
        (move_emails move ids).failed_ids := by
  refine ⟨?_, ?_, ?_⟩
  · simpa [delete_emails, delete_emails_loop_eq_bulkSplit] using
      bulkSplit_partitionSpec store 0 ids hnd
  · simpa [copy_emails, copy_emails_loop_eq_bulkSplit] using
      bulkSplit_partitionSpec (copySucc copy) 0 ids hnd
  · simpa [move_emails, move_emails_loop_eq_bulkSplit] using
      bulkSplit_partitionSpec (moveSucc move) 0 ids hnd

/-- Concrete instance of C1: a three-element batch where the second iteration
fails in each operation. -/
theorem C1_bulk_partition_witness :
    partitionSpec ["1", "2", "3"]
        (delete_emails (fun i => i ≠ 1) ["1", "2", "3"]).deleted_ids
        (delete_emails (fun i => i ≠ 1) ["1", "2", "3"]).failed_ids
      ∧ partitionSpec ["1", "2", "3"]
        (copy_emails (fun i => if i = 1 then .exn else .okStatus) ["1", "2", "3"]).1
        (copy_emails (fun i => if i = 1 then .exn else .okStatus) ["1", "2", "3"]).2
      ∧ partitionSpec ["1", "2", "3"]
        (move_emails (fun i => if i = 1 then .fallbackCopyBad else .moveOk)
          ["1", "2", "3"]).moved_ids
        (move_emails (fun i => if i = 1 then .fallbackCopyBad else .moveOk)
          ["1", "2", "3"]).failed_ids :=
  C1_bulk_partition (fun i => i ≠ 1) (fun i => if i = 1 then .exn else .okStatus)
    (fun i => if i = 1 then .fallbackCopyBad else .moveOk) ["1", "2", "3"] (by decide)

/-- C2 counterexample: a one-element batch whose only `STORE` command raises.
No item succeeded, yet `delete_emails` still issues its `EXPUNGE` (classic.py
line 965 is unconditional), refuting "the expunge call is skipped entirely
when no item of the batch succeeded". -/
theorem C2_counterexample :
    (delete_emails (fun _ => false) ["1"]).deleted_ids = []
      ∧ (delete_emails (fun _ => false) ["1"]).expunge_calls = 1
      ∧ (delete_emails (fun _ => false) ["1"]).expunge_calls ≠ 0 := by
  refine ⟨rfl, rfl, by decide⟩

/-- C2 (amended): `delete_emails` issues exactly one `EXPUNGE` per batch —
never one per item — but unconditionally, even when no item (or every item)
of the batch succeeded. -/
theorem C2_expunge_once_per_batch (store : Nat → Bool) (ids : List String) :
    (delete_emails store ids).expunge_calls = 1 :=
  rfl

/-! ## Metadata listing (`get_emails_metadata_stream`, classic.py lines 417-542)

The metadata produced for one message by `_batch_fetch_headers`. -/

/-- Header metadata record; only the fields the listing algorithm inspects
(`email_id` for reordering, `date` for the fallback sort) are modelled. -/
structure Meta where
  email_id : String
  date : Int
deriving DecidableEq

/-- One logical-operation IMAP session, as observed by
`get_emails_metadata_stream` after connect/login/select succeeded.
`hasSort` models `_has_sort_capability` (line 450); `sortResp` the result of
`UID SORT` — `none` for a raised exception, `some us` for the UID list parsed
from the response, `[]` when the response was empty or missing (line 458);
`searchResp` the UID list from `UID SEARCH` (`messages[0].split()`, line 498);
`fetchDatesFn` the result of `_batch_fetch_dates` and `fetchHeadersFn` the
result of `_batch_fetch_headers` for a given UID list. -/
structure ImapSession where
  hasSort : Bool
  sortResp : Option (List String)
  searchResp : List String
  fetchDatesFn : List String → List (String × Int)
  fetchHeadersFn : List String → List Meta

/-- The key of the reorder-to-page-order sort (lines 476-477 and 531-532):
`uid_order = {uid: i for i, uid in enumerate(page_uids)}` (a later duplicate
overwrites an earlier one) and missing UIDs sort last via
`uid_order.get(..., 999999)`. -/
def uidOrderKey (page_uids : List String) (u : String) : Nat :=
  match ((page_uids.enum.filter (fun p => p.2 = u)).map (fun p => p.1)).getLast? with
  | some i => i
  | none => 999999

/-- Reorder batch-fetched metadata to match the page's UID order:
`metadata_list.sort(key=lambda m: uid_order.get(m["email_id"], 999999))`. -/
def reorderByUids (page_uids : List String) (metas : List Meta) : List Meta :=
  pySortByKey false (fun m => uidOrderKey page_uids m.email_id) metas

/-- Fallback path of `get_emails_metadata_stream` (lines 487-535): search for
all matching UIDs; empty search yields an empty stream; batch-fetch dates; if
that returns nothing, fetch full headers for every UID, sort by date, slice;
otherwise sort the `(uid, date)` pairs by date, slice to the page, batch-fetch
headers for the page and reorder them to the page's UID order. -/
def metadata_fallback (s : ImapSession) (start stop : Int) (desc : Bool) :
    List Meta :=
  let email_ids := s.searchResp
  if email_ids.isEmpty then []
  else
    let date_tuples := s.fetchDatesFn email_ids
    if date_tuples.isEmpty then
      let all_metadata := pySortByKey desc (fun m => m.date) (s.fetchHeadersFn email_ids)
      pySlice all_metadata start stop
    else
      let sorted_tuples := pySortByKey desc (fun p => p.2) date_tuples
      let page_tuples := pySlice sorted_tuples start stop
      let page_uids := page_tuples.map (fun p => p.1)
      if page_uids.isEmpty then []
      else reorderByUids page_uids (s.fetchHeadersFn page_uids)

/-- `get_emails_metadata_stream` (lines 417-542), as the list of yielded
metadata records: `start = (page - 1) * page_size`, `end = start + page_size`
(lines 446-447); with SORT capability, a raised `UID SORT` falls through to
the fallback (line 483), but an empty/missing sort response `return`s an empty
stream (lines 458-460), as does an empty page slice (line 469). -/
def get_emails_metadata_stream (s : ImapSession) (page page_size : Int)
    (desc : Bool) : List Meta :=
  let start := (page - 1) * page_size
  let stop := start + page_size
  if s.hasSort then
    match s.sortResp with
    | some sorted_uids =>
      if sorted_uids.isEmpty then []
      else
        let page_uids := pySlice sorted_uids start stop
        if page_uids.isEmpty then []
        else reorderByUids page_uids (s.fetchHeadersFn page_uids)
    | none => metadata_fallback s start stop desc
  else metadata_fallback s start stop desc

lemma pySlice_drop_take_self {α : Type} (l : List α) (x : Int) :
    (l.take x.toNat).drop x.toNat = [] := by
  apply List.drop_of_length_le
  simp [List.length_take]

lemma pySlice_stop_zero {α : Type} (l : List α) (a : Int) : pySlice l a 0 = [] := by
  have hn : (0 : Int) ≤ (l.length : Int) := Int.ofNat_nonneg _
  simp only [pySlice]
  have hb : (if (0 : Int) < 0 then max ((l.length : Int) + 0) 0 else min 0 (l.length : Int)) = 0 := by
    simp [min_eq_left hn]
  rw [hb]
  simp

lemma pySlice_stop_eq_start {α : Type} (l : List α) (a : Int) : pySlice l a a = [] := by
  simp only [pySlice]
  exact pySlice_drop_take_self l _

lemma metadata_fallback_empty (s : ImapSession) (start stop : Int) (desc : Bool)
    (h : ∀ (β : Type) (l : List β), pySlice l start stop = []) :
    metadata_fallback s start stop desc = [] := by
  unfold metadata_fallback
  dsimp only
  simp [h]

lemma metadata_stream_empty (s : ImapSession) (page page_size : Int) (desc : Bool)
    (h : ∀ (β : Type) (l : List β),
      pySlice l ((page - 1) * page_size) ((page - 1) * page_size + page_size) = []) :
    get_emails_metadata_stream s page page_size desc = [] := by
  unfold get_emails_metadata_stream
  have hf := metadata_fallback_empty s ((page - 1) * page_size)
    ((page - 1) * page_size + page_size) desc h
  split_ifs with h1
  · cases hr : s.sortResp with
    | none => simpa using hf
    | some us =>
      by_cases he : us.isEmpty
      · simp [he]
      · simp [he, h String us]
  · simpa using hf

/-- C3 counterexample: a SORT-capable server whose `UID SORT` returns an
empty response while the mailbox does match one message.  The sort path hits
the `return` at classic.py lines 458-460 and the caller receives an empty
page, whereas the fallback path over the same mailbox contents produces one
item — refuting the claim that an empty/missing sort response falls through to
the fallback. -/
theorem C3_counterexample :
    get_emails_metadata_stream
        { hasSort := true, sortResp := some [], searchResp := ["1"],
          fetchDatesFn := fun _ => [("1", 5)],
          fetchHeadersFn := fun _ => [{ email_id := "1", date := 5 }] } 1 10 true = []
      ∧ metadata_fallback
        { hasSort := true, sortResp := some [], searchResp := ["1"],
          fetchDatesFn := fun _ => [("1", 5)],
          fetchHeadersFn := fun _ => [{ email_id := "1", date := 5 }] } 0 10 true
        = [{ email_id := "1", date := 5 }] := by
  constructor
  · rfl
  · decide

/-- C3 (amended): on the sort-capable path, an exception from `UID SORT`
falls through to the fallback path and yields exactly what the fallback
produces for the same session; but an empty sort response does not fall
through — the stream returns an empty page directly. -/
theorem C3_sort_fallthrough (s : ImapSession) (page page_size : Int) (desc : Bool) :
    (s.sortResp = none →
      get_emails_metadata_stream s page page_size desc
        = metadata_fallback s ((page - 1) * page_size)
            ((page - 1) * page_size + page_size) desc)
      ∧ (s.hasSort = true → s.sortResp = some [] →
        get_emails_metadata_stream s page page_size desc = []) := by
  constructor
  · intro h
    unfold get_emails_metadata_stream
    split_ifs with h1 <;> simp [h]
  · intro hcap h
    unfold get_emails_metadata_stream
    simp [hcap, h]

/-- Concrete instance of C3: with a raised `UID SORT` the stream equals the
fallback output, and with an empty sort response the stream is empty. -/
theorem C3_sort_fallthrough_witness :
    (get_emails_metadata_stream
        { hasSort := true, sortResp := none, searchResp := ["2"],
          fetchDatesFn := fun _ => [("2", 7)],
          fetchHeadersFn := fun _ => [{ email_id := "2", date := 7 }] } 1 10 true
      = metadata_fallback
        { hasSort := true, sortResp := none, searchResp := ["2"],
          fetchDatesFn := fun _ => [("2", 7)],
          fetchHeadersFn := fun _ => [{ email_id := "2", date := 7 }] }
        ((1 - 1) * 10) ((1 - 1) * 10 + 10) true)
      ∧ get_emails_metadata_stream
        { hasSort := true, sortResp := some [], searchResp := ["2"],
          fetchDatesFn := fun _ => [("2", 7)],
          fetchHeadersFn := fun _ => [{ email_id := "2", date := 7 }] } 1 10 true = [] :=
  ⟨(C3_sort_fallthrough _ 1 10 true).1 rfl, (C3_sort_fallthrough _ 1 10 true).2 rfl rfl⟩

lemma pySlice_nonneg {α : Type} (l : List α) (a b : Int) (ha : 0 ≤ a) (hb : 0 ≤ b) :
    pySlice l a b = (l.drop a.toNat).take (b.toNat - a.toNat) := by
  simp only [pySlice]
  have hna : ¬ a < 0 := not_lt.2 ha
  have hnb : ¬ b < 0 := not_lt.2 hb
  simp only [hna, hnb, if_false]
  have h1 : (min b (l.length : Int)).toNat = min b.toNat l.length := by omega
  have h2 : (min a (l.length : Int)).toNat = min a.toNat l.length := by omega
  rw [h1, h2]
  have htake : l.take (min b.toNat l.length) = l.take b.toNat := by
    rcases le_or_lt b.toNat l.length with hle | hlt
    · rw [min_eq_left hle]
    · rw [min_eq_right hlt.le, List.take_length, List.take_of_length_le hlt.le]
  rw [htake]
  rcases le_or_lt a.toNat l.length with hle | hlt
  · rw [min_eq_left hle, List.drop_take]
  · rw [min_eq_right hlt.le]
    have hd1 : (l.take b.toNat).drop l.length = [] :=
      List.drop_of_length_le (by simp [List.length_take])
    have hd2 : l.drop a.toNat = [] := List.drop_of_length_le hlt.le
    rw [hd1, hd2, List.take_nil]

/-- The mailbox fixture for the C5 pagination counterexample: six messages,
no SORT capability, dates equal to the UID values. -/
def sessC5 : ImapSession :=
  { hasSort := false, sortResp := none,
    searchResp := ["1", "2", "3", "4", "5", "6"],
    fetchDatesFn := fun _ =>
      [("1", 1), ("2", 2), ("3", 3), ("4", 4), ("5", 5), ("6", 6)],
    fetchHeadersFn := fun us => us.map (fun u => { email_id := u, date := 0 }) }

/-- C5 counterexample: `page = 1, page_size = -5` over a six-message mailbox.
`start = 0`, `end = -5`, and Python's negative-index slicing makes
`date_tuples[0:-5]` the first element, so the caller receives a non-empty
page — refuting "whenever p or s is zero or negative the operation yields an
empty page of items". -/
theorem C5_counterexample :
    get_emails_metadata_stream sessC5 1 (-5) false = [{ email_id := "1", date := 0 }]
      ∧ get_emails_metadata_stream sessC5 1 (-5) false ≠ [] := by
  constructor
  · decide
  · decide

/-- C5 (amended): metadata listing computes the page window as
`start = (page-1)*page_size`, `end = start+page_size` with 1-indexed pages;
for `page ≥ 1` and `page_size ≥ 0` this window is the natural index window
(drop `start`, take `page_size`); a zero `page` or zero `page_size` yields an
empty page without error; but negative values flow into Python's
end-relative slicing and may yield a non-empty page. -/
theorem C5_pagination {α : Type} (s : ImapSession) (desc : Bool)
    (page page_size : Int) (l : List α) :
    (page = 0 → get_emails_metadata_stream s page page_size desc = [])
      ∧ (page_size = 0 → get_emails_metadata_stream s page page_size desc = [])
      ∧ (1 ≤ page → 0 ≤ page_size →
        pySlice l ((page - 1) * page_size) ((page - 1) * page_size + page_size)
          = (l.drop ((page - 1) * page_size).toNat).take page_size.toNat) := by
  refine ⟨fun hp => ?_, fun hs => ?_, fun hp hs => ?_⟩
  · subst hp
    apply metadata_stream_empty
    intro β m
    rw [show ((0 : Int) - 1) * page_size + page_size = 0 by ring]
    exact pySlice_stop_zero m _
  · subst hs
    apply metadata_stream_empty
    intro β m
    rw [show ((page : Int) - 1) * 0 + 0 = (page - 1) * 0 by ring]
    exact pySlice_stop_eq_start m _
  · have ha : 0 ≤ (page - 1) * page_size := mul_nonneg (by omega) hs
    rw [pySlice_nonneg l _ _ ha (by omega)]
    congr 1
    omega

/-- Concrete instance of C5: page 0 and page size 0 give empty pages, and for
page 2 of size 3 the window is elements 3, 4, 5 of the ordered list. -/
theorem C5_pagination_witness :
    get_emails_metadata_stream sessC5 0 3 false = []
      ∧ get_emails_metadata_stream sessC5 7 0 false = []
      ∧ pySlice [10, 20, 30, 40, 50, 60, 70] ((2 - 1) * 3) ((2 - 1) * 3 + 3)
        = (([10, 20, 30, 40, 50, 60, 70] : List Int).drop (((2 : Int) - 1) * 3).toNat).take
            (3 : Int).toNat :=
  ⟨(C5_pagination sessC5 false 0 3 ([] : List Int)).1 rfl,
    (C5_pagination sessC5 false 7 0 ([] : List Int)).2.1 rfl,
    (C5_pagination sessC5 false 2 3 ([10, 20, 30, 40, 50, 60, 70] : List Int)).2.2
      (by decide) (by decide)⟩

/-! ## Search criteria builder (`_build_search_criteria`, classic.py lines 187-217) -/

/-- A calendar date as carried by a Python `datetime` (only the fields
`strftime("%d-%b-%Y")` reads). -/
structure PyDate where
  year : Nat
  month : Nat
  day : Nat
deriving DecidableEq

/-- Upper-cased English month abbreviation, as produced by `%b` under the C
locale followed by `.upper()`. -/
def monthAbb : Nat → String
  | 1 => "JAN"
  | 2 => "FEB"
  | 3 => "MAR"
  | 4 => "APR"
  | 5 => "MAY"
  | 6 => "JUN"
  | 7 => "JUL"
  | 8 => "AUG"
  | 9 => "SEP"
  | 10 => "OCT"
  | 11 => "NOV"
  | 12 => "DEC"
  | _ => ""

/-- Two-digit zero padding, as produced by `%d`. -/
def pad2 (n : Nat) : String :=
  if n < 10 then "0" ++ toString n else toString n

/-- `date.strftime("%d-%b-%Y").upper()` (classic.py lines 199 and 201); the
year is rendered as a plain decimal number. -/
def strftimeDMonY (d : PyDate) : String :=
  pad2 d.day ++ "-" ++ monthAbb d.month ++ "-" ++ toString d.year

/-- `_build_search_criteria` (classic.py lines 187-217).  The implementation
accepts exactly the parameters `before`, `since`, `subject`, `body`, `text`,
`from_address`, `to_address` — it has no `seen`, `flagged` or `answered`
parameter.  Python truthiness: `None` and the empty string are both falsy for
the textual arguments, so `some ""` adds no tokens. -/
def _build_search_criteria (before since : Option PyDate)
    (subject body text from_address to_address : Option String) : List String :=
  let sc : List String := []
  let sc := match before with
    | some d => sc ++ ["BEFORE", strftimeDMonY d]
    | none => sc
  let sc := match since with
    | some d => sc ++ ["SINCE", strftimeDMonY d]
    | none => sc
  let sc := match subject with
    | some v => if v = "" then sc else sc ++ ["SUBJECT", v]
    | none => sc
  let sc := match body with
    | some v => if v = "" then sc else sc ++ ["BODY", v]
    | none => sc
  let sc := match text with
    | some v => if v = "" then sc else sc ++ ["TEXT", v]
    | none => sc
  let sc := match from_address with
    | some v => if v = "" then sc else sc ++ ["FROM", v]
    | none => sc
  let sc := match to_address with
    | some v => if v = "" then sc else sc ++ ["TO", v]
    | none => sc
  if sc = [] then ["ALL"] else sc

/-- C4: evaluation of `_build_search_criteria` at its supported inputs.  The
function has no `seen`, `flagged` or `answered` parameter, so the claim's
input `seen=False, from_address="a@b.com"` is outside its signature (the
repository's own tests, `tests/test_email_client.py` lines 142-190, call it
with those keywords and would raise `TypeError`); with `from_address` alone
the token list is exactly the adjacent pair `FROM`, `a@b.com` and contains no
`UNSEEN`; with no arguments it is `ALL`; the date keywords behave as the
passing part of the test expects. -/
theorem C4_criteria_code_eval :
    _build_search_criteria none none none none none (some "a@b.com") none
        = ["FROM", "a@b.com"]
      ∧ "UNSEEN" ∉ _build_search_criteria none none none none none (some "a@b.com") none
      ∧ _build_search_criteria none none none none none none none = ["ALL"]
      ∧ _build_search_criteria none (some { year := 2023, month := 1, day := 1 })
          (some "Test") none none (some "test@example.com") none
        = ["SINCE", "01-JAN-2023", "SUBJECT", "Test", "FROM", "test@example.com"] := by
  refine ⟨rfl, by decide, rfl, by decide⟩

/-! ## Date-header parsing (`_parse_date_from_header`, classic.py lines 219-228)

The two standard-library calls inside the `try` block are modelled as oracles
that may either return a value or raise: `parsedate_tz` returns `none` for an
unparseable date (Python `None`) and may itself raise; the composition
`datetime.fromtimestamp(email.utils.mktime_tz(t), tz=timezone.utc)` is
modelled by `mktime_tz`, which may raise (e.g. `OverflowError` for
out-of-range dates). -/

/-- `_parse_date_from_header`: `try` to parse; if the tuple is truthy convert
it; on `None` or on any exception from either call, return the current UTC
time (`datetime.now(timezone.utc)`, modelled by `now`). -/
def _parse_date_from_header {τ : Type}
    (parsedate_tz : String → Except String (Option τ))
    (mktime_tz : τ → Except String Int)
    (now : Int) (date_str : String) : Int :=
  match parsedate_tz date_str with
  | .ok (some date_tuple) =>
    match mktime_tz date_tuple with
    | .ok ts => ts
    | .error _ => now
  | .ok none => now
  | .error _ => now

/-- C6: `_parse_date_from_header` is total — for every string input and every
behavior of the standard-library calls (including both of them raising), it
returns a value: either the current UTC time, or the timestamp successfully
parsed from the header.  No exception escapes, because both calls sit inside
the `try` and every other path returns `now`. -/
theorem C6_parse_date_total {τ : Type}
    (parsedate_tz : String → Except String (Option τ))
    (mktime_tz : τ → Except String Int) (now : Int) (date_str : String) :
    _parse_date_from_header parsedate_tz mktime_tz now date_str = now
      ∨ ∃ t, parsedate_tz date_str = .ok (some t)
        ∧ mktime_tz t = .ok (_parse_date_from_header parsedate_tz mktime_tz now date_str) := by
  cases hp : parsedate_tz date_str with
  | error e => left; simp [_parse_date_from_header, hp]
  | ok o =>
    cases o with
    | none => left; simp [_parse_date_from_header, hp]
    | some t =>
      cases hm : mktime_tz t with
      | error e => left; simp [_parse_date_from_header, hp, hm]
      | ok ts =>
        right
        exact ⟨t, by simp [hp], by simp [_parse_date_from_header, hp, hm]⟩

/-! ## Fetch-response scanning (`_batch_fetch_dates` lines 257-287 and
`_batch_fetch_headers` lines 317-340)

Both loops scan the heterogeneous fetch response with the same control flow:
a `bytearray` item is the payload (the date-header text, resp. the raw header
block); a `bytes` item is scanned with `re.search` for a `UID <digits>` token.
`FetchItem.lit` models a `bytearray` payload (already processed, since the
processing does not touch the pending state) and `FetchItem.txt` a `bytes`
line; `extractUid` models the `re.search(r"UID\s+(\d+)", ...)` capture. -/

/-- One item of the IMAP fetch response data list. -/
inductive FetchItem (β : Type) where
  | lit (payload : β)
  | txt (line : String)

/-- The shared scanning loop: one-slot pending UID and one-slot pending
payload.  A payload emits immediately when a UID is already buffered,
otherwise it is buffered; a UID token emits immediately when a payload is
already buffered, otherwise it is buffered; other text lines are ignored. -/
def fetch_scan {β : Type} (extractUid : String → Option String) :
    Option String → Option β → List (FetchItem β) → List (String × β)
  | _, _, [] => []
  | pending_uid, _, .lit d :: rest =>
    match pending_uid with
    | some u => (u, d) :: fetch_scan extractUid none none rest
    | none => fetch_scan extractUid none (some d) rest
  | pending_uid, pending_payload, .txt line :: rest =>
    match extractUid line with
    | none => fetch_scan extractUid pending_uid pending_payload rest
    | some u =>
      match pending_payload with
      | some d => (u, d) :: fetch_scan extractUid pending_uid none rest
      | none => fetch_scan extractUid (some u) pending_payload rest

/-- A response in which each UID line precedes its payload block (the
standard server shape, e.g. `b'1 FETCH (UID 1 BODY[...'` then the data). -/
def encodeUidFirst {β : Type} (line : String → String) :
    List (String × β) → List (FetchItem β)
  | [] => []
  | (u, d) :: rest => .txt (line u) :: .lit d :: encodeUidFirst line rest

/-- The semantically equivalent response in which each payload block precedes
its UID line (the Proton Bridge shape, e.g. the data then `b' UID 1)'`). -/
def encodeDataFirst {β : Type} (line : String → String) :
    List (String × β) → List (FetchItem β)
  | [] => []
  | (u, d) :: rest => .lit d :: .txt (line u) :: encodeDataFirst line rest

/-- C7: the fetch-response scanning loops are insensitive to UID placement —
for every sequence of (identifier, payload) pairs, the UID-before-data
response and the UID-after-data response parse to the identical list of
pairs (namely the pairs themselves, in order), provided each UID line indeed
carries its identifier's `UID <digits>` token. -/
theorem C7_fetch_scan_uid_position (β : Type) (extractUid : String → Option String)
    (line : String → String) (pairs : List (String × β))
    (hx : ∀ u, extractUid (line u) = some u) :
    fetch_scan extractUid none none (encodeUidFirst line pairs) = pairs
      ∧ fetch_scan extractUid none none (encodeDataFirst line pairs) = pairs := by
  induction pairs with
  | nil => exact ⟨rfl, rfl⟩
  | cons p rest ih =>
    obtain ⟨u, d⟩ := p
    constructor
    · simp [encodeUidFirst, fetch_scan, hx u, ih.1]
    · simp [encodeDataFirst, fetch_scan, hx u, ih.2]

/-- Concrete instance of C7: the pair `("42", "payload")` parses identically
from both fragment orders. -/
theorem C7_fetch_scan_uid_position_witness :
    fetch_scan (fun l => some l) none none
        (encodeUidFirst (fun u => u) [("42", "payload")]) = [("42", "payload")]
      ∧ fetch_scan (fun l => some l) none none
        (encodeDataFirst (fun u => u) [("42", "payload")]) = [("42", "payload")] :=
  C7_fetch_scan_uid_position String (fun l => some l) (fun u => u)
    [("42", "payload")] (fun _ => rfl)

/-! ## Label listing (`list_labels`, classic.py lines 1223-1240)

Python strings are modelled as character lists here, so that the slice
`folder.name[7:]` is `List.drop 7` and `startswith` is `List.isPrefixOf`. -/

/-- A mailbox folder as parsed from a LIST response. -/
structure Folder where
  name : List Char
  delimiter : List Char
  flags : List (List Char)
deriving DecidableEq

/-- A label: a view over a folder under the reserved path. -/
structure Label where
  name : List Char
  full_path : List Char
  delimiter : List Char
  flags : List (List Char)
deriving DecidableEq

/-- The reserved label path, `"Labels/"` (7 characters). -/
def labelsRoot : List Char := "Labels/".toList

/-- `list_labels`: keep folders whose name starts with `"Labels/"`, strip the
first 7 characters to get the label name, and skip the folder whose stripped
name is empty (the bare `"Labels/"` container). -/
def list_labels (folders : List Folder) : List Label :=
  folders.filterMap (fun folder =>
    if labelsRoot.isPrefixOf folder.name then
      let label_name := folder.name.drop 7
      if label_name.isEmpty then none
      else some { name := label_name, full_path := folder.name,
                  delimiter := folder.delimiter, flags := folder.flags }
    else none)

lemma list_labels_entry (f : Folder) (l : Label) :
    (if labelsRoot.isPrefixOf f.name then
        if (f.name.drop 7).isEmpty then none
        else some { name := f.name.drop 7, full_path := f.name,
                    delimiter := f.delimiter, flags := f.flags }
      else none) = some l
      ↔ l.name ≠ [] ∧ f.name = labelsRoot ++ l.name ∧ l.full_path = f.name
        ∧ l.delimiter = f.delimiter ∧ l.flags = f.flags := by
  have h7 : labelsRoot.length = 7 := rfl
  constructor
  · intro h
    split_ifs at h with hpre hemp
    have hp : labelsRoot <+: f.name := List.isPrefixOf_iff_prefix.1 hpre
    obtain ⟨t, ht⟩ := hp
    have hdrop : f.name.drop 7 = t := by
      rw [← ht, ← h7, List.drop_left]
    obtain rfl := (Option.some_injective _ h).symm
    refine ⟨?_, ?_, rfl, rfl, rfl⟩
    · show f.name.drop 7 ≠ []
      simpa [List.isEmpty_iff] using hemp
    · show f.name = labelsRoot ++ f.name.drop 7
      rw [hdrop, ← ht]
  · rintro ⟨hne, hname, hpath, hdel, hfl⟩
    have hpre : labelsRoot.isPrefixOf f.name = true := by
      rw [List.isPrefixOf_iff_prefix, hname]
      exact ⟨l.name, rfl⟩
    have hdrop : f.name.drop 7 = l.name := by
      rw [hname, ← h7, List.drop_left]
    rw [if_pos hpre, hdrop]
    have hemp : ¬ (l.name.isEmpty = true) := by
      simp [List.isEmpty_iff, hne]
    rw [if_neg hemp]
    cases l with
    | mk n p dl fl =>
      simp only [Option.some.injEq, Label.mk.injEq]
      exact ⟨trivial, hpath.symm, hdel.symm, hfl.symm⟩

/-- C8: membership in `list_labels` — a label is produced exactly for the
folders whose name is `"Labels/"` followed by a non-empty suffix; the label's
display name is that suffix, and its `full_path`, delimiter and flags are the
folder's.  In particular a folder named exactly `"Labels/"` (empty suffix)
and a folder not starting with `"Labels/"` yield no label. -/
theorem C8_list_labels_mem (folders : List Folder) (l : Label) :
    l ∈ list_labels folders
      ↔ l.name ≠ [] ∧ ∃ f ∈ folders, f.name = labelsRoot ++ l.name
        ∧ l.full_path = f.name ∧ l.delimiter = f.delimiter ∧ l.flags = f.flags := by
  rw [list_labels, List.mem_filterMap]
  constructor
  · rintro ⟨f, hf, hsome⟩
    obtain ⟨hne, hrest⟩ := (list_labels_entry f l).1 hsome
    exact ⟨hne, f, hf, hrest⟩
  · rintro ⟨hne, f, hf, hrest⟩
    exact ⟨f, hf, (list_labels_entry f l).2 ⟨hne, hrest⟩⟩

/-! ## Body truncation (`_parse_email_data`, classic.py lines 173-175) -/

/-- The truncation step applied to the decoded body:
`if body and len(body) > 20000: body = body[:20000] + "...[TRUNCATED]"`. -/
def truncate_body (body : String) : String :=
  if body ≠ "" ∧ 20000 < body.length then body.take 20000 ++ "...[TRUNCATED]"
  else body

/-- C9: the body returned by email parsing is the original text when its
length is at most 20000 characters, and otherwise exactly the first 20000
characters with the truncation marker appended (the emptiness test in the
source is redundant: an empty body is never longer than 20000). -/
theorem C9_truncate_body (body : String) :
    truncate_body body
      = if 20000 < body.length then body.take 20000 ++ "...[TRUNCATED]" else body := by
  by_cases hb : body = ""
  · subst hb
    have hlen : ¬ (20000 < ("" : String).length) := by decide
    simp [truncate_body, hlen]
  · simp [truncate_body, hb]

/-! ## Label removal (`ClassicEmailHandler.remove_label`, classic.py lines
1537-1582)

The three `EmailClient` calls made per identifier are modelled as oracles:
`get_email_message_id id mailbox` (lines 1242-1270, returning the Message-ID
header value or `None`), `search_by_message_id message_id mailbox` (lines
1272-1311) and `delete_from_folder ids folder` (line 1313, returning
`(deleted_ids, failed_ids)`).  Python truthiness on the returned strings is
modelled by treating an empty string like `None`. -/

/-- Result record of move/copy/label operations (`EmailMoveResponse`). -/
structure EmailMoveResponse where
  success : Bool
  moved_ids : List String
  failed_ids : List String
  source_mailbox : String
  destination_folder : String
deriving DecidableEq

/-- Per-identifier loop of `remove_label` (lines 1551-1574).  Note the
Message-ID lookup at line 1556 passes the literal mailbox `"INBOX"`. -/
def remove_label_loop
    (get_email_message_id : String → String → Option String)
    (search_by_message_id : String → String → Option String)
    (delete_from_folder : List String → String → List String × List String)
    (label_folder : String) : List String → List String × List String
  | [] => ([], [])
  | email_id :: rest =>
    let r := remove_label_loop get_email_message_id search_by_message_id
      delete_from_folder label_folder rest
    match get_email_message_id email_id "INBOX" with
    | none => (r.1, email_id :: r.2)
    | some message_id =>
      if message_id = "" then (r.1, email_id :: r.2)
      else
        match search_by_message_id message_id label_folder with
        | none => (r.1, email_id :: r.2)
        | some label_uid =>
          if label_uid = "" then (r.1, email_id :: r.2)
          else
            let dr := delete_from_folder [label_uid] label_folder
            if dr.1.isEmpty then (r.1, email_id :: r.2)
            else (email_id :: r.1, r.2)

/-- `remove_label` (lines 1537-1582): run the loop over the batch and build
the response with `success = (no failures)`, `source_mailbox` the label
folder and an empty `destination_folder`. -/
def remove_label
    (get_email_message_id : String → String → Option String)
    (search_by_message_id : String → String → Option String)
    (delete_from_folder : List String → String → List String × List String)
    (email_ids : List String) (label_name : String) : EmailMoveResponse :=
  let label_folder := "Labels/" ++ label_name
  let r := remove_label_loop get_email_message_id search_by_message_id
    delete_from_folder label_folder email_ids
  { success := r.2.isEmpty, moved_ids := r.1, failed_ids := r.2,
    source_mailbox := label_folder, destination_folder := "" }

/-- C10: `remove_label` resolves every identifier's Message-ID against the
fixed mailbox `"INBOX"`: its result depends only on the Message-ID lookup's
behavior at `"INBOX"` (so the folder the message actually lives in is never
consulted), and an identifier whose Message-ID cannot be resolved in INBOX is
recorded in `failed_ids` — regardless of what the label-folder search would
have found. -/
theorem C10_remove_label_inbox_only
    (gmi gmi' sbm : String → String → Option String)
    (dff : List String → String → List String × List String)
    (ids : List String) (label_name e : String) :
    ((∀ x, gmi x "INBOX" = gmi' x "INBOX") →
      remove_label gmi sbm dff ids label_name = remove_label gmi' sbm dff ids label_name)
      ∧ (gmi e "INBOX" = none →
        remove_label gmi sbm dff [e] label_name
          = { success := false, moved_ids := [], failed_ids := [e],
              source_mailbox := "Labels/" ++ label_name, destination_folder := "" }) := by
  constructor
  · intro h
    have hloop : ∀ (lf : String) (l : List String),
        remove_label_loop gmi sbm dff lf l = remove_label_loop gmi' sbm dff lf l := by
      intro lf l
      induction l with
      | nil => rfl
      | cons x rest ih => simp only [remove_label_loop, ih, h x]
    unfold remove_label
    dsimp only
    rw [hloop]
  · intro h
    simp [remove_label, remove_label_loop, h]

/-- Concrete instance of C10: an email residing only outside INBOX (the
Message-ID lookup finds it in `"Archive"` but not in `"INBOX"`) is recorded
in `failed_ids` even though the label folder does contain a matching copy
(the search oracle would answer UID `"9"`) — and the result is unchanged when
the lookup's behavior outside `"INBOX"` changes. -/
theorem C10_remove_label_inbox_only_witness :
    (remove_label (fun _ mb => if mb = "INBOX" then none else some "m1")
        (fun _ _ => some "9") (fun l _ => (l, [])) ["42"] "Important"
      = remove_label (fun _ mb => if mb = "INBOX" then none else some "m2")
        (fun _ _ => some "9") (fun l _ => (l, [])) ["42"] "Important")
      ∧ remove_label (fun _ mb => if mb = "INBOX" then none else some "m1")
        (fun _ _ => some "9") (fun l _ => (l, [])) ["42"] "Important"
        = { success := false, moved_ids := [], failed_ids := ["42"],
            source_mailbox := "Labels/Important", destination_folder := "" } :=
  ⟨(C10_remove_label_inbox_only (fun _ mb => if mb = "INBOX" then none else some "m1")
      (fun _ mb => if mb = "INBOX" then none else some "m2")
      (fun _ _ => some "9") (fun l _ => (l, [])) ["42"] "Important" "42").1
      (fun _ => by decide),
    (C10_remove_label_inbox_only (fun _ mb => if mb = "INBOX" then none else some "m1")
      (fun _ mb => if mb = "INBOX" then none else some "m2")
      (fun _ _ => some "9") (fun l _ => (l, [])) ["42"] "Important" "42").2
      (by decide)⟩

end McpEmail
